import Mathlib

/-!
Verification of the `video_generator` library (src/src/examples/avgen.c and
src/src/lib/video_generator.h) against its natural-language specification.

The C code is shallowly embedded: machine structs become Lean structures,
pure computations become Lean functions, `double` values that only ever hold
exact fractions (the chroma factors, the sweep phase) are modelled as `ℚ`,
and C casts that truncate toward zero are modelled explicitly.
-/

namespace VideoGen

/-- The caller-supplied configuration, `struct video_generator_settings`
(video_generator.h lines 245-256).  The function pointer `audio_callback`
is modelled by its presence (`hasAudioCallback`). -/
structure Settings where
  width : ℕ
  height : ℕ
  fps : ℕ
  format : ℕ
  byte_order : ℕ
  bitdepth : ℕ
  onecolor : ℕ
  bip_frequency : ℕ
  bop_frequency : ℕ
  hasAudioCallback : Bool
deriving DecidableEq, Repr

/-- The defaulting block at the top of `video_generator_init`
(avgen.c lines 414-419): every zero field among width, height, fps, format,
bitdepth and byte_order is overwritten, in the caller's struct, with the
corresponding DEFAULT_* constant (640, 480, 3, 420, 8, little-endian = 0). -/
def applyDefaults (cfg : Settings) : Settings :=
  { cfg with
    width := if cfg.width = 0 then 640 else cfg.width,
    height := if cfg.height = 0 then 480 else cfg.height,
    fps := if cfg.fps = 0 then 3 else cfg.fps,
    format := if cfg.format = 0 then 420 else cfg.format,
    bitdepth := if cfg.bitdepth = 0 then 8 else cfg.bitdepth,
    byte_order := if cfg.byte_order = 0 then 0 else cfg.byte_order }

/-- `select_yuv_format` (avgen.c lines 366-385): chroma subsampling factors
`(u_factor, v_factor)` for a chroma-format code; 420 and any unknown code
give (1/2, 1/2). -/
def select_yuv_format (format : ℕ) : ℚ × ℚ :=
  if format = 400 then (0, 0)
  else if format = 444 then (1, 1)
  else if format = 422 then (1/2, 1)
  else (1/2, 1/2)

/-- `select_bitdepth` (avgen.c lines 387-402):
`(pixel_size_in_bytes, pixel_factor)` for a bit depth; 8 and any unknown
depth give (1, 1). -/
def select_bitdepth (bitdepth : ℕ) : ℕ × ℕ :=
  if bitdepth = 10 then (2, 4)
  else if bitdepth = 12 then (2, 16)
  else (1, 1)

/-- The four plane-size fields of `struct video_generator`. -/
structure GenSizes where
  ybytes : ℕ
  ubytes : ℕ
  vbytes : ℕ
  nbytes : ℕ
deriving DecidableEq, Repr

/-- The plane-size computation of `video_generator_init` (avgen.c lines
425-428), applied to an (already defaulted) configuration:
`ybytes = width*height*pixel_size`,
`ubytes = (uint32_t)(width*u_factor) * (uint32_t)(height*v_factor) * pixel_size`
(the C cast of these nonnegative doubles truncates, i.e. takes the floor),
`vbytes = ubytes`, `nbytes = ybytes + ubytes + vbytes`. -/
def video_generator_init_sizes (cfg : Settings) : GenSizes :=
  let uv := select_yuv_format cfg.format
  let pb := select_bitdepth cfg.bitdepth
  let yb := cfg.width * cfg.height * pb.1
  let ub := (⌊(cfg.width : ℚ) * uv.1⌋₊) * (⌊(cfg.height : ℚ) * uv.2⌋₊) * pb.1
  ⟨yb, ub, ub, yb + ub + ub⟩

/-- Chroma plane size expressed with natural division, following the
uFactor/vFactor table of the claim: 400 ↦ 0, 444 ↦ w·h, 422 ↦ (w/2)·h,
420 and default ↦ (w/2)·(h/2), each times bytes-per-sample. -/
def chromaPlaneBytes (w h format bps : ℕ) : ℕ :=
  (if format = 400 then 0
   else if format = 444 then w * h
   else if format = 422 then (w / 2) * h
   else (w / 2) * (h / 2)) * bps

lemma floor_mul_half (w : ℕ) : ⌊(w : ℚ) * (1/2)⌋₊ = w / 2 := by
  rw [mul_one_div, show ((2:ℚ)) = ((2:ℕ):ℚ) by norm_num,
    Nat.floor_div_nat, Nat.floor_natCast]

lemma floor_mul_inv_two (w : ℕ) : ⌊(w : ℚ) * 2⁻¹⌋₊ = w / 2 := by
  rw [show ((2:ℚ)⁻¹) = 1/2 by norm_num]; exact floor_mul_half w

lemma ubytes_eq_chromaPlaneBytes (cfg : Settings) :
    (video_generator_init_sizes cfg).ubytes =
      chromaPlaneBytes cfg.width cfg.height cfg.format
        (select_bitdepth cfg.bitdepth).1 := by
  unfold video_generator_init_sizes chromaPlaneBytes select_yuv_format
  by_cases h400 : cfg.format = 400 <;> by_cases h444 : cfg.format = 444 <;>
    by_cases h422 : cfg.format = 422 <;>
    simp [h400, h444, h422, floor_mul_half, floor_mul_inv_two, Nat.floor_natCast]

/-- The 720×480, fps 30, format 420, bit depth 8 scenario configuration. -/
def cfg720 : Settings :=
  ⟨720, 480, 30, 420, 0, 8, 0, 0, 0, false⟩

lemma applyDefaults_cfg720 : applyDefaults cfg720 = cfg720 := by decide

lemma sizes_cfg720 :
    video_generator_init_sizes cfg720 = ⟨345600, 86400, 86400, 518400⟩ := by
  have h720 : ⌊((720 : ℕ) : ℚ) * (1/2)⌋₊ = 360 := floor_mul_half 720
  have h480 : ⌊((480 : ℕ) : ℚ) * (1/2)⌋₊ = 240 := floor_mul_half 480
  unfold video_generator_init_sizes cfg720 select_yuv_format select_bitdepth
  norm_num at h720 h480 ⊢

/-- Claim C1: for every configuration accepted by `video_generator_init`
(i.e. after the defaulting pass), the plane sizes satisfy
`ybytes = width·height·bytesPerSample`,
`ubytes = vbytes = ⌊width·uFactor⌋·⌊height·vFactor⌋·bytesPerSample`,
`nbytes = ybytes + ubytes + vbytes`, where (uFactor, vFactor) is
(0,0) for format 400, (1/2,1/2) for 420, (1/2,1) for 422, (1,1) for 444,
and bytesPerSample is 1 for depth 8 and 2 for 10 or 12; the chroma size
equals the natural-division form, and for width 720, height 480, format
420, bit depth 8 the sizes are ybytes 345600, ubytes = vbytes = 86400,
nbytes 518400. -/
theorem c1_plane_sizes :
    (∀ cfg : Settings,
      (video_generator_init_sizes (applyDefaults cfg)).ybytes =
        (applyDefaults cfg).width * (applyDefaults cfg).height *
          (select_bitdepth (applyDefaults cfg).bitdepth).1 ∧
      (video_generator_init_sizes (applyDefaults cfg)).ubytes =
        ⌊((applyDefaults cfg).width : ℚ) *
            (select_yuv_format (applyDefaults cfg).format).1⌋₊ *
          ⌊((applyDefaults cfg).height : ℚ) *
            (select_yuv_format (applyDefaults cfg).format).2⌋₊ *
          (select_bitdepth (applyDefaults cfg).bitdepth).1 ∧
      (video_generator_init_sizes (applyDefaults cfg)).vbytes =
        (video_generator_init_sizes (applyDefaults cfg)).ubytes ∧
      (video_generator_init_sizes (applyDefaults cfg)).nbytes =
        (video_generator_init_sizes (applyDefaults cfg)).ybytes +
          (video_generator_init_sizes (applyDefaults cfg)).ubytes +
          (video_generator_init_sizes (applyDefaults cfg)).vbytes ∧
      (video_generator_init_sizes (applyDefaults cfg)).ubytes =
        chromaPlaneBytes (applyDefaults cfg).width (applyDefaults cfg).height
          (applyDefaults cfg).format
          (select_bitdepth (applyDefaults cfg).bitdepth).1) ∧
    select_yuv_format 400 = (0, 0) ∧
    select_yuv_format 420 = (1/2, 1/2) ∧
    select_yuv_format 422 = (1/2, 1) ∧
    select_yuv_format 444 = (1, 1) ∧
    (select_bitdepth 8).1 = 1 ∧
    (select_bitdepth 10).1 = 2 ∧
    (select_bitdepth 12).1 = 2 ∧
    video_generator_init_sizes (applyDefaults cfg720) =
      ⟨345600, 86400, 86400, 518400⟩ := by
  refine ⟨fun cfg => ⟨rfl, rfl, rfl, rfl, ubytes_eq_chromaPlaneBytes _⟩,
    rfl, rfl, rfl, rfl, rfl, rfl, rfl, ?_⟩
  rw [applyDefaults_cfg720, sizes_cfg720]

/-! ## Tone buffer construction (C2)

`video_generator_init`, audio section (avgen.c lines 486-524).  The number
of burst frames is computed as `(uint32_t)(g->audio_bip_millis/1000.0) *
g->audio_samplerate`: the cast truncates `millis/1000.0` to an integer
BEFORE multiplying by the sample rate.  The sine values themselves are left
abstract (a function of the frame index), because whether anything is
written at all does not depend on them. -/

/-- `num_frames = (uint32_t)(millis/1000.0) * samplerate` (avgen.c lines
511 and 519; the same expression appears at lines 907 and 909 with a
`uint16_t` cast).  Nat division `millis / 1000` is exactly the truncation
performed by the cast. -/
def burstFrames (millis samplerate : ℕ) : ℕ := (millis / 1000) * samplerate

/-- Write one interleaved stereo frame: `buffer[2i] = v; buffer[2i+1] = v`
(avgen.c lines 514-515 and 522-523). -/
def writeFrame (b : ℕ → ℤ) (i : ℕ) (v : ℤ) : ℕ → ℤ :=
  fun n => if n = 2 * i ∨ n = 2 * i + 1 then v else b n

/-- One burst loop: for `i` from `start` to `start + count - 1`, write
`sample i` into both channels of frame `i` (avgen.c lines 512-516 for the
bip with `start = samplerate`, lines 520-524 for the bop with
`start = 3 * samplerate`). -/
def writeBurst (buf : ℕ → ℤ) (sample : ℕ → ℤ) (start count : ℕ) : ℕ → ℤ :=
  (List.range count).foldl (fun b j => writeFrame b (start + j) (sample (start + j))) buf

/-- The complete ring-buffer construction of the init audio section:
start from silence (`memset 0`, line 507), write the bip burst, then the
bop burst.  `bipSample`/`bopSample` stand for the quantized sine values
`(int16_t)(10000 * sin((2π/samplerate) * frequency * i))`. -/
def buildToneBuffer (bipSample bopSample : ℕ → ℤ) (samplerate millis : ℕ) : ℕ → ℤ :=
  writeBurst
    (writeBurst (fun _ => 0) bipSample samplerate (burstFrames millis samplerate))
    bopSample (3 * samplerate) (burstFrames millis samplerate)

/-- Burst length in bytes as the claim states it:
`2 · channels · burstMillis · sampleRate / 1000`. -/
def claimBurstBytes (channels millis samplerate : ℕ) : ℕ :=
  2 * channels * millis * samplerate / 1000

/-- Claim C2 (code bug demonstration): with the source constants
(samplerate 44100, burst length 100 ms) the burst loops run zero times —
`(uint32_t)(100/1000.0) = 0` — so the ring buffer built by init is silence
everywhere, for every choice of sine sample values; yet the claimed burst
span is `2·2·100·44100/1000 = 17640` bytes. -/
theorem c2_tone_buffer_all_silence :
    burstFrames 100 44100 = 0 ∧
    (∀ (bipSample bopSample : ℕ → ℤ) (n : ℕ),
      buildToneBuffer bipSample bopSample 44100 100 n = 0) ∧
    claimBurstBytes 2 100 44100 = 17640 := by
  refine ⟨rfl, fun bip bop n => ?_, rfl⟩
  simp [buildToneBuffer, writeBurst, burstFrames]

/-! ## Mutation of the caller's settings by init (C9) -/

/-- A configuration with an unset (zero) width, as a caller may legally
pass it: init is documented to fall back to the default width. -/
def cfgZeroWidth : Settings :=
  ⟨0, 480, 30, 420, 0, 8, 0, 500, 1500, true⟩

/-- Claim C9 counterexample: `video_generator_init` writes the default 640
into the caller's `cfg->width` when it was 0 (avgen.c line 414), so the
settings struct is NOT left unmodified: after the defaulting pass the
width field differs from its value before the call. -/
theorem c9_counterexample_defaults_mutate :
    (applyDefaults cfgZeroWidth).width = 640 ∧ cfgZeroWidth.width = 0 ∧
    applyDefaults cfgZeroWidth ≠ cfgZeroWidth := by decide

/-- Claim C9 (amended): init overwrites exactly the zero fields among
width, height, fps, format, bitdepth and byte_order of the caller's
settings with the defaults 640, 480, 3, 420, 8 and little-endian (0);
nonzero fields, and the onecolor, frequency and callback fields, keep
their values from before the call. -/
theorem c9_amended_defaulting :
    ∀ cfg : Settings,
      (applyDefaults cfg).width = (if cfg.width = 0 then 640 else cfg.width) ∧
      (applyDefaults cfg).height = (if cfg.height = 0 then 480 else cfg.height) ∧
      (applyDefaults cfg).fps = (if cfg.fps = 0 then 3 else cfg.fps) ∧
      (applyDefaults cfg).format = (if cfg.format = 0 then 420 else cfg.format) ∧
      (applyDefaults cfg).bitdepth = (if cfg.bitdepth = 0 then 8 else cfg.bitdepth) ∧
      (applyDefaults cfg).byte_order =
        (if cfg.byte_order = 0 then 0 else cfg.byte_order) ∧
      (applyDefaults cfg).onecolor = cfg.onecolor ∧
      (applyDefaults cfg).bip_frequency = cfg.bip_frequency ∧
      (applyDefaults cfg).bop_frequency = cfg.bop_frequency ∧
      (applyDefaults cfg).hasAudioCallback = cfg.hasAudioCallback :=
  fun _ => ⟨rfl, rfl, rfl, rfl, rfl, rfl, rfl, rfl, rfl, rfl⟩

/-! ## Error codes and resource release in init (C8)

`video_generator_init` (avgen.c lines 404-545).  Allocation and OS
primitive failures are environmental; they are modelled by three failure
flags.  The outcome records the returned code together with which of the
two heap buffers is still allocated (and owned by the half-initialized
generator) when init returns. -/

/-- Environmental failures that init can run into. -/
structure InitEnv where
  audioAllocFails : Bool
  mutexInitFails : Bool
  threadAllocFails : Bool
deriving DecidableEq, Repr

/-- What init returns and what is left allocated at that point. -/
structure InitOutcome where
  code : ℤ
  planesStillAllocated : Bool
  audioBufStillAllocated : Bool
deriving DecidableEq, Repr

/-- `video_generator_init` control flow (avgen.c lines 412-544):
null handle → -1; null cfg → -2; then defaults are applied, the plane
buffer is allocated WITHOUT a success check (line 434), and if an audio
callback is configured: missing bip frequency → -6, missing bop
frequency → -7, tone-buffer allocation failure → -7 (line 503), mutex
init failure → -8 (frees the tone buffer, line 529), thread creation
failure → -9 (frees the tone buffer, line 538); otherwise 0.  On none of
the failure paths after line 434 is the plane buffer freed. -/
def video_generator_init_model (gNull cfgNull : Bool) (cfg : Settings)
    (env : InitEnv) : InitOutcome :=
  if gNull then ⟨-1, false, false⟩
  else if cfgNull then ⟨-2, false, false⟩
  else
    let d := applyDefaults cfg
    -- g->y = malloc(nbytes): result never checked; planes allocated from here on
    if d.hasAudioCallback then
      if d.bip_frequency = 0 then ⟨-6, true, false⟩
      else if d.bop_frequency = 0 then ⟨-7, true, false⟩
      else if env.audioAllocFails then ⟨-7, true, false⟩
      else if env.mutexInitFails then ⟨-8, true, false⟩
      else if env.threadAllocFails then ⟨-9, true, false⟩
      else ⟨0, true, true⟩
    else ⟨0, true, false⟩

/-- An environment in which every allocation and OS primitive succeeds. -/
def envOk : InitEnv := ⟨false, false, false⟩

/-- A full audio configuration (both frequencies set, callback present). -/
def cfgAudio : Settings := ⟨720, 480, 30, 420, 0, 8, 0, 500, 1500, true⟩

/-- The same audio configuration with the bop frequency left unset. -/
def cfgNoBop : Settings := ⟨720, 480, 30, 420, 0, 8, 0, 500, 0, true⟩

/-- Claim C8 counterexample: two distinct failure causes share the error
code -7 — audio requested with a missing bop frequency, and failure to
allocate the tone buffer — so init does NOT return a distinct code for
each failure cause; moreover on the mutex-failure path the plane buffer
(allocated at line 434) is still allocated when init returns, so not all
partially allocated resources are released. -/
theorem c8_counterexample_duplicate_code :
    (video_generator_init_model false false cfgNoBop envOk).code = -7 ∧
    (video_generator_init_model false false cfgAudio ⟨true, false, false⟩).code = -7 ∧
    cfgNoBop ≠ cfgAudio ∧
    (video_generator_init_model false false cfgAudio ⟨false, true, false⟩) =
      ⟨-8, true, false⟩ := by decide

/-- Claim C8 (amended): init returns -1 for a null handle, -2 for a null
config, -6 for a missing bip frequency, -8 for mutex-init failure and -9
for thread-creation failure, each distinct; but a missing bop frequency
and a tone-buffer allocation failure both return -7; plane-buffer
allocation failure is never detected; and on the audio failure paths the
tone buffer is released (or was never held) while the plane buffer stays
allocated. -/
theorem c8_amended_error_codes :
    ∀ (cfg : Settings) (env : InitEnv),
      video_generator_init_model true false cfg env = ⟨-1, false, false⟩ ∧
      video_generator_init_model false true cfg env = ⟨-2, false, false⟩ ∧
      (video_generator_init_model false false cfgNoBop envOk) = ⟨-7, true, false⟩ ∧
      (video_generator_init_model false false cfgAudio ⟨true, false, false⟩) =
        ⟨-7, true, false⟩ ∧
      (video_generator_init_model false false
        (⟨720, 480, 30, 420, 0, 8, 0, 0, 1500, true⟩ : Settings) envOk) =
        ⟨-6, true, false⟩ ∧
      (video_generator_init_model false false cfgAudio ⟨false, true, false⟩) =
        ⟨-8, true, false⟩ ∧
      (video_generator_init_model false false cfgAudio ⟨false, false, true⟩) =
        ⟨-9, true, false⟩ ∧
      (video_generator_init_model false false cfgAudio envOk) = ⟨0, true, true⟩ ∧
      (video_generator_init_model false false cfg720 env) = ⟨0, true, false⟩ :=
  fun _ _ => ⟨rfl, rfl, by decide, by decide, by decide, by decide, by decide,
    by decide, rfl⟩

/-! ## The tone-thread delivery loop (C3, C4)

`audio_thread` (avgen.c lines 866-979).  One iteration that actually
delivers audio (the body of `if (now > timeout)`, lines 927-971) is
modelled as a step function on the ring-read state.  The ring contents
and the scratch (`tmp_buffer`) contents are byte functions `ℕ → ℕ`;
`tmp_buffer` comes from a plain `malloc` (line 901), so its initial
contents are arbitrary. -/

/-- Ring-read state owned by the tone thread: the read offset `dx` and the
current contents of the scratch chunk buffer `tmp_buffer`. -/
structure RingState where
  dx : ℕ
  scratch : ℕ → ℕ

/-- What one delivering iteration produces: the offset the chunk was read
at, the delivered chunk bytes, the two marker flags of this iteration, and
the new ring-read state. -/
structure Delivery where
  offset : ℕ
  chunk : ℕ → ℕ
  isBip : Bool
  isBop : Bool
  next : RingState

/-- `g->audio_nbytes = sizeof(int16_t) * 44100 * 2 * 4` (avgen.c line 495). -/
def bytesTotal : ℕ := 2 * 44100 * 2 * 4

/-- Chunk size `nbytes = audio_nsamples * sizeof(int16_t) * nchannels`
with `audio_nsamples = 1024` (avgen.c lines 493 and 900). -/
def chunkBytes : ℕ := 1024 * 2 * 2

/-- `num_bip_bytes = sizeof(int16_t) * nchannels * num_bip_frames` where
`num_bip_frames = (uint16_t)(audio_bip_millis/1000.0) * samplerate`
(avgen.c lines 907-908): the cast truncates 100/1000 to 0 first. -/
def audioNumBipBytes : ℕ := 2 * 2 * burstFrames 100 44100

/-- `num_bop_bytes`, same formula with the bop burst length (lines 909-910). -/
def audioNumBopBytes : ℕ := 2 * 2 * burstFrames 100 44100

/-- `bip_start_dx = bytes_total / audio_nseconds` (line 911). -/
def bipStartDx : ℕ := bytesTotal / 4

/-- `bip_end_dx = bip_start_dx + num_bip_bytes` (line 912). -/
def bipEndDx : ℕ := bipStartDx + audioNumBipBytes

/-- `bop_start_dx = (bytes_total / audio_nseconds) * 3` (line 913). -/
def bopStartDx : ℕ := (bytesTotal / 4) * 3

/-- `bop_end_dx = bop_start_dx + num_bop_bytes` (line 914). -/
def bopEndDx : ℕ := bopStartDx + audioNumBopBytes

/-- One delivering iteration of the tone-thread loop (avgen.c lines
929-955), translated statement by statement:
the marker flags are computed from `dx` (lines 930-931); `bytes_to_end =
bytes_total - dx`, reset to the full ring when it is 0 (lines 933-937);
when the chunk crosses the ring end, `memcpy(tmp_buffer, audio_buffer+dx,
bytes_to_end-1)` copies ONE BYTE LESS than the tail (line 942), the head
is copied at `tmp_buffer + bytes_to_end` (line 946), the scratch buffer is
delivered and `dx` becomes `bytes_needed - bytes_to_end` (line 949);
otherwise the chunk is read in place and `dx` advances by `nbytes`
(lines 953-954). -/
def deliverStep (ring : ℕ → ℕ) (total needed bipS bipE bopS bopE : ℕ)
    (s : RingState) : Delivery :=
  let isBip : Bool := decide (bipS ≤ s.dx ∧ s.dx ≤ bipE)
  let isBop : Bool := decide (bopS ≤ s.dx ∧ s.dx ≤ bopE)
  let bte0 := total - s.dx
  let dx0 := if bte0 = 0 then 0 else s.dx
  let bytesToEnd := if bte0 = 0 then total else bte0
  if bytesToEnd < needed then
    let scr1 : ℕ → ℕ := fun j => if j < bytesToEnd - 1 then ring (dx0 + j) else s.scratch j
    let bytesFromStart := needed - bytesToEnd
    let scr2 : ℕ → ℕ := fun j =>
      if bytesToEnd ≤ j ∧ j < bytesToEnd + bytesFromStart then ring (j - bytesToEnd)
      else scr1 j
    ⟨dx0, scr2, isBip, isBop, ⟨bytesFromStart, scr2⟩⟩
  else
    ⟨dx0, fun j => ring (dx0 + j), isBip, isBop, ⟨dx0 + needed, s.scratch⟩⟩

lemma deliverStep_isBip (ring : ℕ → ℕ) (total needed bS bE boS boE dx : ℕ)
    (scr : ℕ → ℕ) :
    (deliverStep ring total needed bS bE boS boE ⟨dx, scr⟩).isBip =
      decide (bS ≤ dx ∧ dx ≤ bE) := by
  simp only [deliverStep]; split <;> split <;> rfl

lemma deliverStep_isBop (ring : ℕ → ℕ) (total needed bS bE boS boE dx : ℕ)
    (scr : ℕ → ℕ) :
    (deliverStep ring total needed bS bE boS boE ⟨dx, scr⟩).isBop =
      decide (boS ≤ dx ∧ dx ≤ boE) := by
  simp only [deliverStep]; split <;> split <;> rfl

lemma deliverStep_next_dx (ring : ℕ → ℕ) (total needed bS bE boS boE dx : ℕ)
    (scr : ℕ → ℕ) :
    (deliverStep ring total needed bS bE boS boE ⟨dx, scr⟩).next.dx =
      (if (if total - dx = 0 then total else total - dx) < needed then
        needed - (if total - dx = 0 then total else total - dx)
      else (if total - dx = 0 then 0 else dx) + needed) := by
  simp only [deliverStep]
  split <;> split <;> rfl

/-- The ring contents init actually produces (all silence, see C2). -/
def zeroRing : ℕ → ℕ := fun _ => 0

/-- A scratch buffer whose (uninitialized) bytes happen to be 1. -/
def oneScratch : ℕ → ℕ := fun _ => 1

/-- Claim C3 (code bug demonstration): at the first wrap of the actual
configuration (offset 704512 = 172·4096, 1088 bytes to the ring end,
chunk 4096), the source copies `bytes_to_end - 1 = 1087` tail bytes, so
byte 1087 of the delivered chunk is the stale scratch byte (here 1), not
ring byte 704512+1087 (0): the chunk is NOT the tail segment followed by
the head segment.  The neighbouring bytes 1086 (tail) and 1088 (head) are
copied correctly, and the next offset is the wrapped remainder 3008. -/
theorem c3_wrap_copy_drops_tail_byte :
    (deliverStep zeroRing bytesTotal chunkBytes bipStartDx bipEndDx bopStartDx
        bopEndDx ⟨704512, oneScratch⟩).offset = 704512 ∧
    (deliverStep zeroRing bytesTotal chunkBytes bipStartDx bipEndDx bopStartDx
        bopEndDx ⟨704512, oneScratch⟩).chunk 1086 = 0 ∧
    (deliverStep zeroRing bytesTotal chunkBytes bipStartDx bipEndDx bopStartDx
        bopEndDx ⟨704512, oneScratch⟩).chunk 1087 = 1 ∧
    zeroRing (704512 + 1087) = 0 ∧
    (deliverStep zeroRing bytesTotal chunkBytes bipStartDx bipEndDx bopStartDx
        bopEndDx ⟨704512, oneScratch⟩).chunk 1087 ≠ zeroRing (704512 + 1087) ∧
    (deliverStep zeroRing bytesTotal chunkBytes bipStartDx bipEndDx bopStartDx
        bopEndDx ⟨704512, oneScratch⟩).chunk 1088 = 0 ∧
    (deliverStep zeroRing bytesTotal chunkBytes bipStartDx bipEndDx bopStartDx
        bopEndDx ⟨704512, oneScratch⟩).next.dx = 3008 := by
  refine ⟨rfl, ?_, ?_, rfl, ?_, ?_, rfl⟩ <;> decide

/-- Claim C4 (code bug demonstration): the bip/bop windows computed by the
tone thread are degenerate — `num_bip_bytes = num_bop_bytes = 0` because
`(uint16_t)(100/1000.0) = 0` — so `bip_end_dx = bip_start_dx` while the
claimed window spans `burstBytes = 17640` bytes.  At the delivered offset
180224 = 44·4096, inside the claimed window [176400, 194040], the thread
computes `is_bip = 0`.  In fact every reachable offset is a multiple of
64 (the chunk size and ring size both are), while `bip_start_dx = 176400`
and `bop_start_dx = 529200` are not, so neither flag is ever raised:
whenever an iteration starts at an offset divisible by 64, both flags are
false and the next offset is again divisible by 64. -/
theorem c4_marker_windows_degenerate :
    audioNumBipBytes = 0 ∧ audioNumBopBytes = 0 ∧ bipEndDx = bipStartDx ∧
    bopEndDx = bopStartDx ∧ claimBurstBytes 2 100 44100 = 17640 ∧
    ((deliverStep zeroRing bytesTotal chunkBytes bipStartDx bipEndDx bopStartDx
        bopEndDx ⟨180224, oneScratch⟩).isBip = false ∧
      bipStartDx ≤ 180224 ∧ 180224 ≤ bipStartDx + claimBurstBytes 2 100 44100) ∧
    (∀ (ring scratch : ℕ → ℕ) (dx : ℕ), dx % 64 = 0 →
      (deliverStep ring bytesTotal chunkBytes bipStartDx bipEndDx bopStartDx
          bopEndDx ⟨dx, scratch⟩).isBip = false ∧
      (deliverStep ring bytesTotal chunkBytes bipStartDx bipEndDx bopStartDx
          bopEndDx ⟨dx, scratch⟩).isBop = false ∧
      (deliverStep ring bytesTotal chunkBytes bipStartDx bipEndDx bopStartDx
          bopEndDx ⟨dx, scratch⟩).next.dx % 64 = 0) := by
  refine ⟨rfl, rfl, rfl, rfl, rfl, ⟨by decide, by decide, by decide⟩,
    fun ring scratch dx hdx => ?_⟩
  have hbipS : bipStartDx = 176400 := by decide
  have hbipE : bipEndDx = 176400 := by decide
  have hbopS : bopStartDx = 529200 := by decide
  have hbopE : bopEndDx = 529200 := by decide
  have htot : bytesTotal = 705600 := by decide
  have hchunk : chunkBytes = 4096 := by decide
  rw [deliverStep_isBip, deliverStep_isBop, deliverStep_next_dx,
    hbipS, hbipE, hbopS, hbopE, htot, hchunk]
  refine ⟨?_, ?_, ?_⟩
  · simp only [decide_eq_false_iff_not, not_and]
    intro h1 h2; omega
  · simp only [decide_eq_false_iff_not, not_and]
    intro h1 h2; omega
  · split_ifs <;> omega

/-- Claim C4 witness: the invariant component of
`c4_marker_windows_degenerate` applied at the concrete offset 4096. -/
theorem c4_marker_windows_degenerate_witness :
    (4096 : ℕ) % 64 = 0 ∧
    (deliverStep zeroRing bytesTotal chunkBytes bipStartDx bipEndDx bopStartDx
        bopEndDx ⟨4096, oneScratch⟩).isBip = false :=
  ⟨by decide,
    (c4_marker_windows_degenerate.2.2.2.2.2.2 zeroRing oneScratch 4096
      (by decide)).1⟩

/-! ## The frame update (C5, C6, C7)

`video_generator_update` (avgen.c lines 602-759).  The sweep phase `perc`
and step are exact small fractions, modelled as `ℚ`; the C cast
`(int32_t)(double)` truncates toward zero. -/

/-- C cast of a `double` to a signed integer: truncation toward zero. -/
def ctrunc (q : ℚ) : ℤ := if 0 ≤ q then ⌊q⌋ else -⌊-q⌋

lemma ctrunc_eq_floor {q : ℚ} (h : 0 ≤ q) : ctrunc q = ⌊q⌋ := if_pos h

/-- `CLIP` (avgen.c line 335). -/
def clip (x : ℤ) : ℤ := if x > 255 then 255 else if x < 0 then 0 else x

/-- `RGB2Y` (avgen.c line 336); `>> 8` on an `int` is an arithmetic shift,
i.e. floor division by 256. -/
def rgb2y (r g b : ℤ) : ℤ := clip (Int.fdiv (66*r + 129*g + 25*b + 128) 256 + 16)

/-- `RGB2U` (avgen.c line 337). -/
def rgb2u (r g b : ℤ) : ℤ := clip (Int.fdiv (-38*r - 74*g + 112*b + 128) 256 + 128)

/-- `RGB2V` (avgen.c line 338). -/
def rgb2v (r g b : ℤ) : ℤ := clip (Int.fdiv (112*r - 94*g - 18*b + 128) 256 + 128)

/-- `LSB(val, be)` (avgen.c lines 342, 346, 350): the first byte emitted
for a packed sample — low 8 bits in little-endian mode, high 8 bits
(`(val >> 8) & 0xFF`) in big-endian mode. -/
def lsbOf (val : ℕ) (be : Bool) : ℕ := if be then val / 256 % 256 else val % 256

/-- `MSB(val, be)` (avgen.c lines 343, 347, 349): the second byte emitted
for a packed sample. -/
def msbOf (val : ℕ) (be : Bool) : ℕ := if be then val % 256 else val / 256 % 256

/-- The (first, second) byte pair emitted for one packed sample by every
2-byte writer: the sweep-bar luma (lines 686-687), the sweep-bar chroma
(lines 701-704) and `fill` for the background bands and the timestamp box
(lines 781-782 and 794-797): the first byte written is `LSB(v, byte_order)`
and the second `MSB(v, byte_order)`. -/
def packPair (val : ℕ) (be : Bool) : ℕ × ℕ := (lsbOf val be, msbOf val be)

/-- `(uint8_t)` cast of a nonnegative double expression. -/
def u8 (q : ℚ) : ℕ := (ctrunc q).toNat % 256

/-- The sweep-bar RGB color (avgen.c lines 674-676), a function of the
(already advanced) `perc`; the intermediate casts are `uint8_t`, so the
additions wrap modulo 256. -/
def barColor (perc : ℚ) : ℕ × ℕ × ℕ :=
  ((255 - u8 (perc * 255)) % 256,
   (30 + u8 (perc * 235)) % 256,
   (150 + u8 (perc * 205)) % 256)

/-- The packed sweep-bar YUV values (avgen.c lines 677-679):
`yc = (uint16_t)(RGB2Y(rc,gc,bc) * pixel_factor)` and likewise for
`uc`/`vc` (the products are at most 255·16, far below 2^16). -/
def barYUVScaled (perc : ℚ) (pf : ℕ) : ℕ × ℕ × ℕ :=
  let c := barColor perc
  ((rgb2y c.1 c.2.1 c.2.2).toNat * pf,
   (rgb2u c.1 c.2.1 c.2.2).toNat * pf,
   (rgb2v c.1 c.2.1 c.2.2).toNat * pf)

/-- The sweep-bar window computation of `video_generator_update`
(avgen.c lines 632-646), from the CURRENT `perc`:
`h = height - 1`, `bar_h = height / 5` (unsigned division),
`start_y = -bar_h + (int32_t)(perc * (h + bar_h))`, then clip:
if `start_y < 0` the visible window is `(0, bar_h + start_y)`;
else if `start_y + bar_h > h` it is `(start_y, h - start_y)`;
else `(start_y, bar_h)`.  Returns (visible start row, visible lines). -/
def geomFromPerc (height : ℕ) (perc : ℚ) : ℤ × ℤ :=
  let h : ℤ := (height : ℤ) - 1
  let barH : ℤ := ((height / 5 : ℕ) : ℤ)
  let startY0 : ℤ := -barH + ctrunc (perc * ((h + barH : ℤ) : ℚ))
  if startY0 < 0 then (0, barH + startY0)
  else if startY0 + barH > h then (startY0, h - startY0)
  else (startY0, barH)

/-- The phase advance (avgen.c lines 649-652): `perc += step`, wrapping
to 0 once `perc >= 1.0`. -/
def advancePerc (perc step : ℚ) : ℚ :=
  if 1 ≤ perc + step then 0 else perc + step

/-- The geometry as claim C6 describes it: computed from the ALREADY
advanced `perc`.  Defined only to be compared with `geomFromPerc`,
which is what the source computes. -/
def claimOrderGeometry (height : ℕ) (perc step : ℚ) : ℤ × ℤ :=
  geomFromPerc height (advancePerc perc step)

/-- Observable outcome of one `video_generator_update` call. -/
structure UpdateOutcome where
  result : ℤ
  startY : ℤ
  nlines : ℤ
  barRGB : ℕ × ℕ × ℕ
  ycBytes : ℕ × ℕ
  ucBytes : ℕ × ℕ
  vcBytes : ℕ × ℕ
  newPerc : ℚ
  newFrame : ℕ

/-- `video_generator_update` (avgen.c lines 602-759), reduced to the state
it reads and writes: null handle → -1 (line 624), zero width → -2, zero
height → -3 (lines 625-626); the bar window is computed from the CURRENT
`perc` (lines 632-646); `perc` is then advanced (lines 649-652); the
defensive window check (lines 654-657) returns -1 without touching the
frame counter; otherwise the bar color is computed from the ADVANCED
`perc` (lines 674-679), its samples are packed with the LSB/MSB macros
(lines 686-687, 701-704), and the frame counter is incremented by one
(line 757). -/
def video_generator_update_model (gNull : Bool) (width height pf : ℕ)
    (be : Bool) (perc step : ℚ) (frame : ℕ) : UpdateOutcome :=
  if gNull then ⟨-1, 0, 0, (0,0,0), (0,0), (0,0), (0,0), perc, frame⟩
  else if width = 0 then ⟨-2, 0, 0, (0,0,0), (0,0), (0,0), (0,0), perc, frame⟩
  else if height = 0 then ⟨-3, 0, 0, (0,0,0), (0,0), (0,0), (0,0), perc, frame⟩
  else
    let g := geomFromPerc height perc
    let p2 := advancePerc perc step
    if g.2 + g.1 > (height : ℤ) ∨ g.2 < 0 ∨ g.1 < 0 ∨ g.1 ≥ (height : ℤ) then
      ⟨-1, g.1, g.2, (0,0,0), (0,0), (0,0), (0,0), p2, frame⟩
    else
      let yuv := barYUVScaled p2 pf
      ⟨0, g.1, g.2, barColor p2, packPair yuv.1 be, packPair yuv.2.1 be,
        packPair yuv.2.2 be, p2, frame + 1⟩

lemma geomFromPerc_bounds (height : ℕ) (perc : ℚ)
    (hh : 0 < height) (h0 : 0 ≤ perc) (h1 : perc < 1) :
    0 ≤ (geomFromPerc height perc).1 ∧
    (geomFromPerc height perc).1 < (height : ℤ) ∧
    0 ≤ (geomFromPerc height perc).2 ∧
    (geomFromPerc height perc).1 + (geomFromPerc height perc).2 ≤ (height : ℤ) := by
  have hH : (0:ℤ) ≤ ((height : ℤ) - 1) + ((height / 5 : ℕ) : ℤ) := by
    have : (1:ℤ) ≤ (height : ℤ) := by exact_mod_cast hh
    omega
  have hq : (0:ℚ) ≤ perc * (((((height : ℤ) - 1) + ((height / 5 : ℕ) : ℤ)) : ℤ) : ℚ) :=
    mul_nonneg h0 (by exact_mod_cast hH)
  have ht : ctrunc (perc * (((((height : ℤ) - 1) + ((height / 5 : ℕ) : ℤ)) : ℤ) : ℚ)) =
      ⌊perc * (((((height : ℤ) - 1) + ((height / 5 : ℕ) : ℤ)) : ℤ) : ℚ)⌋ :=
    ctrunc_eq_floor hq
  have ht0 : 0 ≤ ⌊perc * (((((height : ℤ) - 1) + ((height / 5 : ℕ) : ℤ)) : ℤ) : ℚ)⌋ :=
    Int.floor_nonneg.2 hq
  have ht1 : (((height : ℤ) - 1) + ((height / 5 : ℕ) : ℤ) = 0 ∧
      ⌊perc * (((((height : ℤ) - 1) + ((height / 5 : ℕ) : ℤ)) : ℤ) : ℚ)⌋ = 0) ∨
      ⌊perc * (((((height : ℤ) - 1) + ((height / 5 : ℕ) : ℤ)) : ℤ) : ℚ)⌋ <
        ((height : ℤ) - 1) + ((height / 5 : ℕ) : ℤ) := by
    rcases eq_or_lt_of_le hH with heq | hpos
    · refine Or.inl ⟨heq.symm, ?_⟩
      rw [← heq]
      simp
    · refine Or.inr (Int.floor_lt.2 ?_)
      calc perc * (((((height : ℤ) - 1) + ((height / 5 : ℕ) : ℤ)) : ℤ) : ℚ) <
            1 * (((((height : ℤ) - 1) + ((height / 5 : ℕ) : ℤ)) : ℤ) : ℚ) := by
              exact mul_lt_mul_of_pos_right h1 (by exact_mod_cast hpos)
        _ = (((((height : ℤ) - 1) + ((height / 5 : ℕ) : ℤ)) : ℤ) : ℚ) := one_mul _
  simp only [geomFromPerc]
  rw [ht]
  split_ifs <;> refine ⟨?_, ?_, ?_, ?_⟩ <;> omega

/-- Claim C5: from any state reachable after a successful init (positive
width and height, phase `perc ∈ [0,1)`), the bar-window arithmetic of
`video_generator_update` yields `0 ≤ visibleStartY < height`,
`visibleLineCount ≥ 0` and `visibleStartY + visibleLineCount ≤ height`,
so the defensive out-of-bounds branch is not taken and update succeeds;
it fails only for a null handle (-1), zero width (-2) or zero height (-3). -/
theorem c5_update_window_safe :
    ∀ (width height pf : ℕ) (be : Bool) (perc step : ℚ) (frame : ℕ),
      (video_generator_update_model true width height pf be perc step frame).result
        = -1 ∧
      (video_generator_update_model false 0 height pf be perc step frame).result
        = -2 ∧
      (width ≠ 0 →
        (video_generator_update_model false width 0 pf be perc step frame).result
          = -3) ∧
      (0 < width → 0 < height → 0 ≤ perc → perc < 1 →
        (video_generator_update_model false width height pf be perc step frame).result
            = 0 ∧
          0 ≤ (video_generator_update_model false width height pf be perc step
              frame).startY ∧
          (video_generator_update_model false width height pf be perc step
              frame).startY < (height : ℤ) ∧
          0 ≤ (video_generator_update_model false width height pf be perc step
              frame).nlines ∧
          (video_generator_update_model false width height pf be perc step
                frame).startY +
              (video_generator_update_model false width height pf be perc step
                frame).nlines ≤ (height : ℤ)) := by
  intro width height pf be perc step frame
  refine ⟨rfl, rfl, fun hw => ?_, fun hw hh h0 h1 => ?_⟩
  · simp [video_generator_update_model, hw]
  · have hb := geomFromPerc_bounds height perc hh h0 h1
    have hcheck : ¬((geomFromPerc height perc).2 + (geomFromPerc height perc).1 >
        (height : ℤ) ∨ (geomFromPerc height perc).2 < 0 ∨
        (geomFromPerc height perc).1 < 0 ∨
        (geomFromPerc height perc).1 ≥ (height : ℤ)) := by
      push_neg
      exact ⟨by omega, by omega, by omega, by omega⟩
    simp only [video_generator_update_model, if_neg (by simp : ¬(false = true)),
      if_neg (Nat.pos_iff_ne_zero.1 hw), if_neg (Nat.pos_iff_ne_zero.1 hh),
      if_neg hcheck]
    exact ⟨by trivial, hb.1, hb.2.1, hb.2.2.1, hb.2.2.2⟩

/-- Claim C5 witness: `c5_update_window_safe` at width 720, height 480,
`perc = 0`, `step = 1/150`. -/
theorem c5_update_window_safe_witness :
    (video_generator_update_model false 720 480 1 false 0 (1/150) 0).result = 0 :=
  ((c5_update_window_safe 720 480 1 false 0 (1/150) 0).2.2.2
    (by norm_num) (by norm_num) (by norm_num) (by norm_num)).1

lemma geomFromPerc_480_zero : geomFromPerc 480 (0 : ℚ) = (0, 0) := by
  simp only [geomFromPerc, ctrunc]
  norm_num

lemma advancePerc_zero : advancePerc 0 (1/150) = 1/150 := by
  unfold advancePerc
  norm_num

lemma claimOrderGeometry_480 : claimOrderGeometry 480 0 (1/150) = (0, 3) := by
  unfold claimOrderGeometry
  rw [advancePerc_zero]
  simp only [geomFromPerc, ctrunc]
  norm_num

/-- Claim C6 counterexample: in the state right after init for the 720×480,
fps 30 scenario (`perc = 0`, `step = 1/150`), the first `update` draws a
sweep-bar window computed from the NOT-yet-advanced `perc = 0` — zero
visible lines — whereas the claimed order (advance `perc` first, then
compute the geometry) would give 3 visible lines; the claim that the bar
position is a function of the advanced `perc` is therefore false.  The
advanced phase 1/150 is used only afterwards, for the bar color. -/
theorem c6_counterexample_stale_perc_geometry :
    (video_generator_update_model false 720 480 1 false 0 (1/150) 0).nlines = 0 ∧
    (video_generator_update_model false 720 480 1 false 0 (1/150) 0).newPerc
      = 1/150 ∧
    (claimOrderGeometry 480 0 (1/150)).2 = 3 ∧
    (video_generator_update_model false 720 480 1 false 0 (1/150) 0).nlines ≠
      (claimOrderGeometry 480 0 (1/150)).2 := by
  have hm : video_generator_update_model false 720 480 1 false 0 (1/150) 0 =
      ⟨0, 0, 0, barColor (1/150),
        packPair (barYUVScaled (1/150) 1).1 false,
        packPair (barYUVScaled (1/150) 1).2.1 false,
        packPair (barYUVScaled (1/150) 1).2.2 false, 1/150, 1⟩ := by
    simp only [video_generator_update_model, geomFromPerc_480_zero, advancePerc_zero]
    norm_num
  rw [hm, claimOrderGeometry_480]
  norm_num

/-- Claim C6 (amended): `video_generator_update` computes the sweep-bar
geometry from the CURRENT `perc`, then advances `perc` by `step` (wrapping
to 0 at ≥ 1), and computes the bar color from the ADVANCED value: the bar
position of the produced frame is a function of the pre-advance phase and
only the bar color is a function of the advanced phase. -/
theorem c6_amended_geometry_then_advance :
    ∀ (width height pf : ℕ) (be : Bool) (perc step : ℚ) (frame : ℕ),
      width ≠ 0 → height ≠ 0 →
      ((video_generator_update_model false width height pf be perc step
          frame).startY,
        (video_generator_update_model false width height pf be perc step
          frame).nlines) = geomFromPerc height perc ∧
      (video_generator_update_model false width height pf be perc step
          frame).newPerc = advancePerc perc step ∧
      ((video_generator_update_model false width height pf be perc step
          frame).result = 0 →
        (video_generator_update_model false width height pf be perc step
          frame).barRGB = barColor (advancePerc perc step)) := by
  intro width height pf be perc step frame hw hh
  simp only [video_generator_update_model, Bool.false_eq_true, if_false,
    if_neg hw, if_neg hh]
  split_ifs with hchk
  · exact ⟨rfl, rfl, fun habs => absurd habs (by norm_num)⟩
  · exact ⟨rfl, rfl, fun _ => rfl⟩

/-- Claim C6 witness: `c6_amended_geometry_then_advance` at the 720×480
scenario state. -/
theorem c6_amended_geometry_then_advance_witness :
    ((video_generator_update_model false 720 480 1 false 0 (1/150) 0).startY,
      (video_generator_update_model false 720 480 1 false 0 (1/150) 0).nlines)
        = geomFromPerc 480 0 ∧
    (video_generator_update_model false 720 480 1 false 0 (1/150) 0).newPerc
      = advancePerc 0 (1/150) :=
  ⟨(c6_amended_geometry_then_advance 720 480 1 false 0 (1/150) 0
      (by norm_num) (by norm_num)).1,
    (c6_amended_geometry_then_advance 720 480 1 false 0 (1/150) 0
      (by norm_num) (by norm_num)).2.1⟩

/-- Claim C7: for 2-byte samples (bit depth 10 or 12), every packed sample
emitted by the drawing writers — `packPair`, used for the sweep-bar luma
and chroma and by `fill` for the background bands and the timestamp box —
has its low 8 bits as the first byte and its high 8 bits as the second
byte in little-endian mode, and its high 8 bits first in big-endian mode. -/
theorem c7_packed_sample_byte_order :
    ∀ v : ℕ, v < 65536 →
      packPair v false = (v % 256, v / 256) ∧
      packPair v true = (v / 256, v % 256) := by
  intro v hv
  have hd : v / 256 % 256 = v / 256 := Nat.mod_eq_of_lt (by omega)
  constructor <;> simp [packPair, lsbOf, msbOf, hd]

/-- Claim C7 witness: `c7_packed_sample_byte_order` at the sample value
940 (= 3·256 + 172). -/
theorem c7_packed_sample_byte_order_witness :
    packPair 940 false = (940 % 256, 940 / 256) ∧
    packPair 940 true = (940 / 256, 940 % 256) :=
  c7_packed_sample_byte_order 940 (by norm_num)

/-! ## The clear function (C10)

`video_generator_clear` (avgen.c lines 547-599).  The function starts by
reading `g->audio_thread` (line 550) — i.e. it dereferences the handle —
and only afterwards checks `if (!g) return -1;` (line 564).  The handle is
an `Option`; calling with `none` models the null-pointer dereference: the
program crashes and no result is produced. -/

/-- The fields of the generator that `video_generator_clear` branches on. -/
structure ClearGen where
  audioThreadRunning : Bool
  audioBufferPresent : Bool
  width : ℕ
  height : ℕ
  yPresent : Bool
deriving DecidableEq, Repr

/-- Observable actions of `video_generator_clear`, in program order. -/
inductive ClearEv where
  | readThreadField
  | lockMutex
  | setStopFlag
  | unlockMutex
  | joinThread
  | freeAudioBuffer
  | nullHandleCheck
  | freePlanes
deriving DecidableEq, Repr

/-- `video_generator_clear` (avgen.c lines 547-599): first `g->audio_thread`
is read (line 550; a crash if `g` is null — modelled as no result); when a
tone thread is running, the mutex is locked, the stop flag set, the mutex
unlocked, the thread joined (lines 551-554) and the audio buffer freed if
present (lines 558-561); only then comes `if (!g) return -1` (line 564,
never taken since `g` was already dereferenced), then the width (-2) and
height (-3) guards (lines 565-566), then the planes are freed and the
fields zeroed, returning 0. -/
def video_generator_clear_model (g? : Option ClearGen) :
    Option ℤ × List ClearEv :=
  match g? with
  | none => (none, [ClearEv.readThreadField])
  | some g =>
    let evs1 := [ClearEv.readThreadField] ++
      (if g.audioThreadRunning then
        [ClearEv.lockMutex, ClearEv.setStopFlag, ClearEv.unlockMutex,
          ClearEv.joinThread] ++
        (if g.audioBufferPresent then [ClearEv.freeAudioBuffer] else [])
      else [])
    -- line 564: `if (!g) return -1;` — g is non-null here, never taken
    let evs2 := evs1 ++ [ClearEv.nullHandleCheck]
    if g.width = 0 then (some (-2), evs2)
    else if g.height = 0 then (some (-3), evs2)
    else (some 0, evs2 ++ (if g.yPresent then [ClearEv.freePlanes] else []))

/-- Claim C10: `video_generator_clear` reads the handle's `audio_thread`
field — and, when a tone thread runs, locks the mutex, sets the stop flag
and joins the thread — before its null-handle check, so a null handle
produces no result at all (a crash), every returned result comes from a
non-null handle, and the null-handle code -1 is never returned. -/
theorem c10_clear_null_check_dead :
    (∀ (g? : Option ClearGen) (r : ℤ),
      (video_generator_clear_model g?).1 = some r → g? ≠ none ∧ r ≠ -1) ∧
    (video_generator_clear_model none).1 = none ∧
    (∀ g : ClearGen, g.audioThreadRunning = true →
      (video_generator_clear_model (some g)).2.take 5 =
        [ClearEv.readThreadField, ClearEv.lockMutex, ClearEv.setStopFlag,
          ClearEv.unlockMutex, ClearEv.joinThread] ∧
      ClearEv.nullHandleCheck ∉ (video_generator_clear_model (some g)).2.take 5) ∧
    (∀ g : ClearGen,
      (video_generator_clear_model (some g)).2.head? =
        some ClearEv.readThreadField) := by
  refine ⟨?_, rfl, ?_, ?_⟩
  · rintro (_ | g) r hr
    · exact absurd hr (by simp [video_generator_clear_model])
    · refine ⟨by simp, ?_⟩
      simp only [video_generator_clear_model] at hr
      split_ifs at hr <;> simp only [Prod.fst] at hr <;>
        simp only [Option.some_inj] at hr <;> omega
  · intro g hrun
    rcases g with ⟨at_, ab, w, h, y⟩
    simp only at hrun
    subst hrun
    simp only [video_generator_clear_model]
    rcases ab <;> split_ifs <;> simp
  · intro g
    rcases g with ⟨at_, ab, w, h, y⟩
    simp only [video_generator_clear_model]
    rcases at_ <;> rcases ab <;> split_ifs <;> simp

/-- Claim C10 witness: `c10_clear_null_check_dead` applied to a concrete
cleared generator (720×480, tone thread running) whose result is 0. -/
theorem c10_clear_null_check_dead_witness :
    (some (⟨true, true, 720, 480, true⟩ : ClearGen) : Option ClearGen) ≠ none ∧
    (0 : ℤ) ≠ -1 :=
  c10_clear_null_check_dead.1 (some ⟨true, true, 720, 480, true⟩) 0 (by decide)

end VideoGen
